import Mathlib

/-!
Verification development for the `GP` class of celerite
(`python/celerite/celerite.py`).

The file shallowly embeds the composite Gaussian-process object: the
parameter bus over the three sub-models (`mean`, `log_white_noise`,
`kernel`), the dirty/clean invalidation state machine, and the evaluation
pipeline (`compute`, `log_likelihood`, `apply_inverse`, `dot`, `predict`,
`get_matrix`).  Machine floats are idealised as real numbers.

The sub-model class (`modeling.Model`) and the native `Solver` are external
collaborators of the shown source; they are modelled from the spec
(sections 3, 4.1 and 4.3) and marked `Modelled from the spec:` below.
-/

open scoped Classical

noncomputable section

/-- Numpy inputs whose dimensionality matters to the source are either
one- or two-dimensional real arrays (`np.atleast_1d` has already been
applied, so zero-dimensional input does not occur). -/
inductive PyArr where
  | one : List ℝ → PyArr
  | two : List (List ℝ) → PyArr

/-- Python `len` of an array: the extent of the first axis. -/
def PyArr.pyLen : PyArr → ℕ
  | .one l => l.length
  | .two m => m.length

/-- `len(x.shape)`. -/
def PyArr.ndim : PyArr → ℕ
  | .one _ => 1
  | .two _ => 2

/-- The one-dimensional content of a bound coordinate array.  All
operations after `compute` are modelled on one-dimensional coordinates
(the only validated case); for a two-dimensional binding (possible only
with sortedness checking disabled) the rows are concatenated, a value no
theorem below depends on. -/
def PyArr.flat : PyArr → List ℝ
  | .one l => l
  | .two m => m.flatten

/-- `np.any(np.diff(l) < 0.0)` on a one-dimensional array: some adjacent
pair strictly decreases. -/
def diffAnyNeg : List ℝ → Prop
  | a :: b :: rest => b < a ∨ diffAnyNeg (b :: rest)
  | _ => False

/-- The error conditions surfaced by the source (RuntimeError /
ValueError), by their messages. -/
inductive Err where
  /-- RuntimeError "you must call 'compute' first". -/
  | notComputed
  /-- ValueError "the input coordinates must be sorted". -/
  | notSorted
  /-- ValueError "dimension mismatch". -/
  | dimMismatch
  /-- ValueError "unrecognized parameter '...'". -/
  | unrecognized (name : String)
  /-- A sub-model rejecting a parameter-vector slice of the wrong length
  (Modelled from the spec: each sub-model consumes exactly its own
  unfrozen slots). -/
  | badParamLength
  /-- Inputs outside the modelled fragment (e.g. `x2` given without `x1`,
  or matrix right-hand sides where the claims only use vectors). -/
  | badInput
deriving DecidableEq

/-- Dot product of two real lists (`np.dot` on equal-length vectors;
`zipWith` truncates at the shorter list). -/
def dotL (a b : List ℝ) : ℝ := (List.zipWith (· * ·) a b).sum

/-- Dense matrix–vector product, rows × vector. -/
def matVec (M : List (List ℝ)) (v : List ℝ) : List ℝ :=
  M.map (fun row => dotL row v)

/-- `kernel.get_value(x1[:, None] - x2[None, :])`: the dense covariance
between two coordinate sets for a (parameter-instantiated) kernel
function `k`. -/
def kernelMatrix (k : ℝ → ℝ) (x1 x2 : List ℝ) : List (List ℝ) :=
  x1.map (fun a => x2.map (fun b => k (a - b)))

/-- Add `c` to the entry at position `i` of a list. -/
def addIdx : List ℝ → ℕ → ℝ → List ℝ
  | [], _, _ => []
  | x :: xs, 0, c => (x + c) :: xs
  | x :: xs, i + 1, c => x :: addIdx xs i c

/-- Helper for `addDiag`: row `i` (counting from `k`) receives `d[i]` at
column `i`. -/
def addDiagAux : List (List ℝ) → List ℝ → ℕ → List (List ℝ)
  | [], _, _ => []
  | r :: rs, d, k => addIdx r k (d.getD k 0) :: addDiagAux rs d (k + 1)

/-- `K[np.diag_indices_from(K)] += d`. -/
def addDiag (M : List (List ℝ)) (d : List ℝ) : List (List ℝ) :=
  addDiagAux M d 0

/-- Columnwise application of a vector solve to a matrix right-hand side
(`Solver.solve` on a two-dimensional array). -/
def solveMat (f : List ℝ → List ℝ) (M : List (List ℝ)) : List (List ℝ) :=
  ((M.transpose).map f).transpose

/-- Modelled from the spec: a Parameterized Component (`modeling.Model`,
not under `src/`).  Each declared parameter is a
(name, value, unfrozen?) triple in declaration order, plus the
component's own dirty flag (spec section 3). -/
structure Component where
  params : List (String × ℝ × Bool)
  dirty : Bool

/-- `full_size`: total parameter count, frozen ones included. -/
def Component.fullSize (c : Component) : ℕ := c.params.length

/-- `vector_size`: count of unfrozen parameters. -/
def Component.vectorSize (c : Component) : ℕ :=
  (c.params.filter (fun p => p.2.2)).length

/-- The full parameter values in declaration order (what the concrete
sub-model functions are evaluated against). -/
def Component.vals (c : Component) : List ℝ := c.params.map (fun p => p.2.1)

/-- Modelled from the spec: reading a sub-model's `parameter_vector`
yields one value per unfrozen parameter, in declaration order. -/
def Component.parameterVector (c : Component) : List ℝ :=
  c.params.filterMap (fun p => if p.2.2 then some p.2.1 else none)

/-- Walk the declared parameters, consuming one value of `v` per
unfrozen slot. -/
def assignUnfrozen : List (String × ℝ × Bool) → List ℝ → List (String × ℝ × Bool)
  | [], _ => []
  | p :: ps, v =>
    if p.2.2 then
      match v with
      | w :: ws => (p.1, w, true) :: assignUnfrozen ps ws
      | [] => p :: assignUnfrozen ps []
    else
      p :: assignUnfrozen ps v

/-- Modelled from the spec: writing a sub-model's `parameter_vector`
reassigns exactly its own unfrozen slots (spec section 4.1) and marks the
sub-model dirty; a slice of the wrong length is rejected. -/
def Component.setParameterVector (c : Component) (v : List ℝ) : Except Err Component :=
  if v.length = c.vectorSize then
    .ok { params := assignUnfrozen c.params v, dirty := true }
  else
    .error .badParamLength

/-- Modelled from the spec: a sub-model's `set_parameter` resolves the
(tag-stripped) name, writes the value and marks the sub-model dirty; an
unknown name is a lookup error (spec sections 4.1 and 7). -/
def Component.setParam (c : Component) (name : String) (value : ℝ) : Except Err Component :=
  if c.params.any (fun p => p.1 = name) then
    .ok { params := c.params.map (fun p => if p.1 = name then (p.1, value, p.2.2) else p),
          dirty := true }
  else
    .error (.unrecognized name)

/-- Modelled from the spec: what the native `Solver` retains of a
successful `compute` call.  The numeric contract (spec section 4.3) ties
every factorization query to the dense symmetric matrix
`K = Kernel(t, t) + diag(yerr**2 + exp(log_white_noise))` that was handed
to `compute` through the kernel coefficients, the coordinates and the
diagonal; the state is therefore modelled as that matrix. -/
structure SolverState where
  A : List (List ℝ)

/-- The composite GP object (`celerite.GP`).  The three components carry
the parameter bus state; `meanF`, `noiseF` and `kernelF` are the external
sub-models' value functions (`get_value`), evaluated at the component's
current full parameter values; `solveF` and `logdetF` are the external
solver's query routines on a factored matrix (Modelled from the spec,
section 4.3: `solve(y) = K⁻¹y`, `log_determinant() = log|K|`). -/
structure GPState where
  mean : Component
  log_white_noise : Component
  kernel : Component
  meanF : List ℝ → ℝ → ℝ
  noiseF : List ℝ → ℝ → ℝ
  kernelF : List ℝ → ℝ → ℝ
  solver : Option SolverState
  computedFlag : Bool
  t : Option PyArr
  yerr : Option (List ℝ)
  solveF : List (List ℝ) → List ℝ → List ℝ
  logdetF : List (List ℝ) → ℝ

/-- `GP.dirty` (property getter, lines 218-225): the OR of the three
sub-model dirty flags and "the solver has not successfully computed". -/
def GPState.dirty (gp : GPState) : Bool :=
  gp.mean.dirty || gp.log_white_noise.dirty || gp.kernel.dirty || !gp.computedFlag

/-- `GP.dirty` (property setter, lines 227-232): cascades the flag to the
three sub-models and flips `_computed`. -/
def GPState.setDirty (gp : GPState) (value : Bool) : GPState :=
  { gp with computedFlag := !value,
            mean := { gp.mean with dirty := value },
            log_white_noise := { gp.log_white_noise with dirty := value },
            kernel := { gp.kernel with dirty := value } }

/-- `GP.computed`: `not self.dirty`. -/
def GPState.computed (gp : GPState) : Bool := !gp.dirty

/-- The one-dimensional view of the bound coordinates. -/
def GPState.tl (gp : GPState) : List ℝ :=
  match gp.t with
  | some a => a.flat
  | none => []

/-- Python `len(self._t)` (0 stands for the unbound case, which every
use below guards against first). -/
def GPState.tLen (gp : GPState) : ℕ :=
  match gp.t with
  | some a => a.pyLen
  | none => 0

/-- The bound observation uncertainties (empty before any binding). -/
def GPState.yerrL (gp : GPState) : List ℝ := gp.yerr.getD []

/-- `GP._get_diag` (lines 185-187):
`self._yerr**2 + np.exp(self.log_white_noise.get_value(self._t))`. -/
def GPState.getDiag (gp : GPState) : List ℝ :=
  List.zipWith (fun e x => e ^ 2 + Real.exp (gp.noiseF gp.log_white_noise.vals x))
    gp.yerrL gp.tl

/-- The `yerr` argument of `compute`: a scalar default broadcast over the
coordinates, or (on the internal `_recompute` path) the stored array. -/
inductive YErrIn where
  | scalar : ℝ → YErrIn
  | arr : List ℝ → YErrIn

/-- `self._yerr = np.empty_like(self._t); self._yerr[:] = yerr`. -/
def fillY : YErrIn → ℕ → List ℝ
  | .scalar v, n => List.replicate n v
  | .arr l, _ => l

/-- `np.any(np.diff(t) < 0.0)` on either shape (for a two-dimensional
array `np.diff` differences along the last axis, so any row with a
strictly decreasing adjacent pair triggers). -/
def PyArr.diffNeg : PyArr → Prop
  | .one l => diffAnyNeg l
  | .two m => ∃ r ∈ m, diffAnyNeg r

/-- `GP.compute(t, yerr, check_sorted)` (lines 75-94).  Both validation
checks run only under `check_sorted`; then `_t` and `_yerr` are bound, a
solver exists from here on, and `Solver.compute` factors
`Kernel(t, t) + diag(self._get_diag())` built from the kernel's live
coefficients (Modelled from the spec, section 4.3: the factorization is
retained as that matrix; the native `compute` itself performs no
sortedness validation).  Finally `self.dirty = False`. -/
def GPState.compute (gp : GPState) (tIn : PyArr) (yerrIn : YErrIn)
    (check_sorted : Bool) : Except Err GPState :=
  if check_sorted = true ∧ tIn.diffNeg then
    .error .notSorted
  else if check_sorted = true ∧ tIn.ndim > 1 then
    .error .dimMismatch
  else
    let gp1 := { gp with t := some tIn, yerr := some (fillY yerrIn tIn.pyLen) }
    let A := addDiag (kernelMatrix (gp1.kernelF gp1.kernel.vals) gp1.tl gp1.tl) gp1.getDiag
    .ok (({ gp1 with solver := some ⟨A⟩ } : GPState).setDirty false)

/-- `GP._recompute` (lines 96-100): if dirty, re-run `compute` on the
stored coordinates and uncertainties with checking disabled, failing when
no coordinates were ever bound. -/
def GPState.recompute (gp : GPState) : Except Err GPState :=
  if gp.dirty = true then
    match gp.t with
    | none => .error .notComputed
    | some tb => gp.compute tb (.arr gp.yerrL) false
  else
    .ok gp

/-- `GP._process_input` (lines 102-107): fails when coordinates were
never bound, or when `len(self._t) != len(y)`. -/
def GPState.processInput (gp : GPState) (y : PyArr) : Except Err PyArr :=
  match gp.t with
  | none => .error .notComputed
  | some tb => if y.pyLen = tb.pyLen then .ok y else .error .dimMismatch

/-- `GP.log_likelihood(y)` (lines 117-125).  The residual is formed
against the mean model at the bound coordinates, `_recompute` runs if
needed, a residual of more than one dimension is rejected, and the result
is `-0.5 * (dot_solve(resid) + log_determinant() + len(y)*log(2*pi))`.
(The source forms the two-dimensional residual before rejecting it; no
value depends on it, so the guard is placed before the formation here.
`dot_solve` is modelled from the spec, section 4.3, as the quadratic form
against the factored matrix.) -/
def GPState.logLikelihood (gp : GPState) (y : PyArr) : Except Err ℝ := do
  let y ← gp.processInput y
  let resid := List.zipWith (· - ·) y.flat (gp.tl.map (gp.meanF gp.mean.vals))
  let gp' ← gp.recompute
  match y with
  | .two _ => .error .dimMismatch
  | .one yl =>
    match gp'.solver with
    | none => .error .badInput
    | some s =>
      .ok (-(0.5) * (dotL resid (gp'.solveF s.A resid) + gp'.logdetF s.A +
        (yl.length : ℝ) * Real.log (2 * Real.pi)))

/-- `GP.apply_inverse(y)` (lines 127-129): recompute if needed, then
`solver.solve` on the processed input (the vector case; matrix right-hand
sides occur only inside `predict` and are handled there). -/
def GPState.applyInverse (gp : GPState) (y : PyArr) : Except Err (List ℝ) := do
  let gp' ← gp.recompute
  let y ← gp'.processInput y
  match y, gp'.solver with
  | .one yl, some s => .ok (gp'.solveF s.A yl)
  | _, _ => .error .badInput

/-- `GP.dot(y)` (lines 131-140): recompute if needed, then the solver's
direct `dot(coefficients, t, y)` (Modelled from the spec, section 4.3:
`Ky` from the kernel coefficients and coordinates alone, making no use of
the cached factorization). -/
def GPState.dot (gp : GPState) (y : PyArr) : Except Err (List ℝ) := do
  let gp' ← gp.recompute
  let y ← gp'.processInput y
  match y with
  | .one yl =>
    .ok (matVec (kernelMatrix (gp'.kernelF gp'.kernel.vals) gp'.tl gp'.tl) yl)
  | .two _ => .error .badInput

/-- The three shapes of `GP.predict`'s result: mean only, mean with
per-point variance, or mean with dense covariance. -/
inductive PredictOut where
  | meanOnly : List ℝ → PredictOut
  | withVar : List ℝ → List ℝ → PredictOut
  | withCov : List ℝ → List (List ℝ) → PredictOut

/-- `GP.predict(y, t, return_cov, return_var)` (lines 142-183).
`alpha = solver.solve(resid)`; at the training points (`t` unset) the
mean term uses the diagonal shortcut `y - self._get_diag() * alpha`,
otherwise the cross-covariance `Kxs = get_matrix(xs, self._t)` (both
arguments given, hence no diagonal) is applied to `alpha`.  The variance
path is the columnwise diagonal-only computation, the covariance path the
dense formula. -/
def GPState.predict (gp : GPState) (y : PyArr) (tst : Option PyArr)
    (return_cov return_var : Bool) : Except Err PredictOut := do
  let y ← gp.processInput y
  match y with
  | .two _ => .error .dimMismatch
  | .one yl => do
    let xs ← match tst with
      | none => pure gp.tl
      | some (.one l) => pure l
      | some (.two _) => .error .dimMismatch
    let gp' ← gp.recompute
    match gp'.solver with
    | none => .error .badInput
    | some s =>
      let resid := List.zipWith (· - ·) yl (gp'.tl.map (gp'.meanF gp'.mean.vals))
      let alpha0 := gp'.solveF s.A resid
      let alpha :=
        match tst with
        | none => List.zipWith (· - ·) yl (List.zipWith (· * ·) gp'.getDiag alpha0)
        | some _ =>
          matVec (kernelMatrix (gp'.kernelF gp'.kernel.vals) xs gp'.tl) alpha0
      let mu := List.zipWith (· + ·) (xs.map (gp'.meanF gp'.mean.vals)) alpha
      if return_var = false ∧ return_cov = false then
        .ok (.meanOnly mu)
      else
        let Kxs := kernelMatrix (gp'.kernelF gp'.kernel.vals) xs gp'.tl
        let KxsT := Kxs.transpose
        let KinvKxsT := solveMat (gp'.solveF s.A) KxsT
        if return_var = true then
          let var := ((List.zipWith (List.zipWith (· * ·)) KxsT KinvKxsT).transpose.map
            List.sum).map (fun sv => -sv + gp'.kernelF gp'.kernel.vals 0)
          .ok (.withVar mu var)
        else
          let cov := List.zipWith (List.zipWith (· - ·))
            (kernelMatrix (gp'.kernelF gp'.kernel.vals) xs xs)
            (Kxs.map (fun r => KinvKxsT.transpose.map (fun c => dotL r c)))
          .ok (.withCov mu cov)

/-- `GP.get_matrix(x1, x2, include_diagonal)` (lines 189-207).  With both
coordinate sets omitted this is the training self-covariance (requiring a
prior successful compute) with the full diagonal
(`yerr**2 + exp(log_white_noise)`) added unless `include_diagonal` is
`False`.  With `x1` given and `x2` omitted, `x2 = x1` and only the
white-noise term is added to the diagonal, and only when
`include_diagonal` is explicitly truthy.  With both given, no diagonal is
ever added.  (`x2` without `x1` is a `TypeError` in the original and is
outside the modelled fragment.) -/
def GPState.getMatrix (gp : GPState) (x1 x2 : Option (List ℝ))
    (include_diagonal : Option Bool) : Except Err (List (List ℝ)) :=
  match x1, x2 with
  | none, none =>
    if gp.t.isNone || !gp.computed then
      .error .notComputed
    else
      let K := kernelMatrix (gp.kernelF gp.kernel.vals) gp.tl gp.tl
      match include_diagonal with
      | some false => .ok K
      | _ => .ok (addDiag K gp.getDiag)
  | some l1, some l2 =>
    .ok (kernelMatrix (gp.kernelF gp.kernel.vals) l1 l2)
  | some l1, none =>
    let K := kernelMatrix (gp.kernelF gp.kernel.vals) l1 l1
    if include_diagonal = some true then
      .ok (addDiag K (l1.map (fun x => Real.exp (gp.noiseF gp.log_white_noise.vals x))))
    else
      .ok K
  | none, some _ => .error .badInput

/-- `GP.full_size` (lines 234-240). -/
def GPState.fullSize (gp : GPState) : ℕ :=
  gp.mean.fullSize + gp.log_white_noise.fullSize + gp.kernel.fullSize

/-- `GP.vector_size` (lines 242-248). -/
def GPState.vectorSize (gp : GPState) : ℕ :=
  gp.mean.vectorSize + gp.log_white_noise.vectorSize + gp.kernel.vectorSize

/-- `GP.parameter_vector` (property getter, lines 258-264): the three
sub-vectors concatenated in the fixed order mean, noise, kernel. -/
def GPState.parameterVector (gp : GPState) : List ℝ :=
  gp.mean.parameterVector ++ gp.log_white_noise.parameterVector ++
    gp.kernel.parameterVector

/-- `GP.parameter_vector` (property setter, lines 274-280): the input is
sliced at `[0, mean.full_size)`,
`[mean.full_size, mean.full_size + log_white_noise.full_size)` and the
remainder goes to the kernel.  A sub-model's rejection propagates as the
exception, leaving the mutations already made in place (none precede the
first failing sub-model here, matching the source's sequencing). -/
def GPState.setParameterVector (gp : GPState) (v : List ℝ) : GPState × Option Err :=
  let i := gp.mean.fullSize
  match gp.mean.setParameterVector (v.take i) with
  | .error e => (gp, some e)
  | .ok m =>
    let gp2 := { gp with mean := m }
    let j := gp2.log_white_noise.fullSize
    match gp2.log_white_noise.setParameterVector ((v.drop i).take j) with
    | .error e => (gp2, some e)
    | .ok w =>
      let gp3 := { gp2 with log_white_noise := w }
      match gp3.kernel.setParameterVector (v.drop (i + j)) with
      | .error e => (gp3, some e)
      | .ok k => ({ gp3 with kernel := k }, none)

/-- `GP._apply_to_parameter` (lines 291-298): dispatch on the component
tag of the name, forwarding the tag-stripped remainder; no recognised
tag is a `ValueError`. -/
def GPState.applyToParameter (gp : GPState) (name : String) (value : ℝ) :
    Except Err GPState :=
  if name.startsWith "mean:" then
    (gp.mean.setParam (name.drop 5) value).map (fun c => { gp with mean := c })
  else if name.startsWith "log_white_noise:" then
    (gp.log_white_noise.setParam (name.drop 16) value).map
      (fun c => { gp with log_white_noise := c })
  else if name.startsWith "kernel:" then
    (gp.kernel.setParam (name.drop 7) value).map (fun c => { gp with kernel := c })
  else
    .error (.unrecognized name)

/-- Python call semantics for a mutating method: on success the new state
is returned, on an exception the object keeps the mutations made before
the raise (here: the dirty write that precedes the dispatch). -/
def afterDispatch (atRaise : GPState) : Except Err GPState → GPState × Option Err
  | .ok gp2 => (gp2, none)
  | .error e => (atRaise, some e)

/-- `GP.set_parameter(name, value)` (lines 319-321): `self.dirty = True`
runs before the dispatch, so the mutation survives a failed lookup.  The
result is the object's state when the call returns, with the raised
error if any. -/
def GPState.setParameter (gp : GPState) (name : String) (value : ℝ) :
    GPState × Option Err :=
  afterDispatch (gp.setDirty true) ((gp.setDirty true).applyToParameter name value)

/-- The residual `y - mean(t)` formed by `log_likelihood` and `predict`
against the mean model at the bound coordinates. -/
def residOf (gp : GPState) (tl yl : List ℝ) : List ℝ :=
  List.zipWith (· - ·) yl (tl.map (gp.meanF gp.mean.vals))

/-- A small concrete GP state used to instantiate hypotheses: constant
mean and white-noise models with their single parameter frozen (the
constructor's default), a one-parameter kernel, and no coordinates ever
bound. -/
def gpEx : GPState where
  mean := ⟨[("value", 0, false)], false⟩
  log_white_noise := ⟨[("value", 0, false)], false⟩
  kernel := ⟨[("k1", 1, true)], false⟩
  meanF := fun _ _ => 0
  noiseF := fun _ _ => 0
  kernelF := fun _ _ => 0
  solver := none
  computedFlag := false
  t := none
  yerr := none
  solveF := fun _ r => r
  logdetF := fun _ => 0

/-- A concrete GP state with every parameter of every sub-model thawed
(`fit_mean=True`, `fit_white_noise=True`, nothing frozen). -/
def gpThawed : GPState :=
  { gpEx with
      mean := ⟨[("value", 0, true)], false⟩,
      log_white_noise := ⟨[("value", 0, true)], false⟩,
      kernel := ⟨[("k1", 1, true)], false⟩ }

/-- A concrete GP state with coordinates `[0, 1]` and uncertainties
bound (still dirty: nothing has been factored yet). -/
def gpT : GPState := { gpEx with t := some (.one [0, 1]), yerr := some [1, 1] }

/-- The concrete state of Claim C3's instance: `t = [0, 1, 2]` bound with
zero uncertainties, zero constant mean, an indicator kernel whose
self-covariance at distinct sorted points is the identity, and an
identity matrix in the factored solver (the white-noise variance is zero,
i.e. `log_white_noise = -inf`, so no diagonal is added). -/
def gpC3 : GPState :=
  { gpEx with
      t := some (.one [0, 1, 2]),
      yerr := some [0, 0, 0],
      solver := some ⟨[[1, 0, 0], [0, 1, 0], [0, 0, 1]]⟩,
      computedFlag := true,
      kernelF := fun _ d => if d = 0 then 1 else 0 }

/-- The concrete state of Claim C8's counterexample: computed at
`t = [0]` with `yerr = [1]`, zero kernel, zero log-white-noise value
(so the white-noise variance is `exp(0) = 1` and the full diagonal is
`1^2 + 1 = 2`). -/
def gpC8 : GPState :=
  { gpEx with
      t := some (.one [0]),
      yerr := some [1],
      solver := some ⟨[[2]]⟩,
      computedFlag := true }

/-- The concrete state of Claim C1's witness: one training point `[0]`,
`yerr = [1]`, constant kernel 1, zero mean and zero log-white-noise, a
consistently factored covariance `[[2 + exp 0]]`
(`= kernel(0) + yerr^2 + exp(wn)`), and an exact solve routine for it. -/
def gpC1 : GPState :=
  { gpEx with
      t := some (.one [0]),
      yerr := some [1],
      computedFlag := true,
      kernelF := fun _ _ => 1,
      solver := some ⟨[[2 + Real.exp 0]]⟩,
      solveF := fun _ r => r.map (fun x => x / (2 + Real.exp 0)) }

/-- The failing input of Claim C1: the same computed one-point state as
`gpC1` but with a constant mean of 1 (a fitted, nonzero mean model). -/
def gpC1m : GPState := { gpC1 with meanF := fun _ _ => 1 }

/-- A sub-model's successful `set_parameter` marks it dirty. -/
theorem Component.setParam_dirty (c : Component) (n : String) (v : ℝ) (c' : Component)
    (h : c.setParam n v = .ok c') : c'.dirty = true := by
  unfold Component.setParam at h
  split at h
  · cases h; rfl
  · cases h

/-- A successful parameter dispatch on a state whose three sub-models are
all dirty leaves a state that reads dirty. -/
theorem applyToParameter_ok_dirty (gp : GPState) (name : String) (value : ℝ)
    (h2 : gp.log_white_noise.dirty = true) (h3 : gp.kernel.dirty = true)
    (gp2 : GPState) (h : gp.applyToParameter name value = .ok gp2) :
    gp2.dirty = true := by
  unfold GPState.applyToParameter at h
  split at h
  · cases hc : gp.mean.setParam (name.drop 5) value with
    | ok c => rw [hc] at h; cases h; simp [GPState.dirty, h2]
    | error e => rw [hc] at h; cases h
  · split at h
    · cases hc : gp.log_white_noise.setParam (name.drop 16) value with
      | ok c => rw [hc] at h; cases h; simp [GPState.dirty, h3]
      | error e => rw [hc] at h; cases h
    · split at h
      · cases hc : gp.kernel.setParam (name.drop 7) value with
        | ok c => rw [hc] at h; cases h; simp [GPState.dirty, h2]
        | error e => rw [hc] at h; cases h
      · cases h

/-- Clearing the dirty flag clears the composite read. -/
theorem setDirty_false_dirty (gp : GPState) : (gp.setDirty false).dirty = false := by
  simp [GPState.setDirty, GPState.dirty]

/-- Setting the dirty flag sets the composite read. -/
theorem setDirty_true_dirty (gp : GPState) : (gp.setDirty true).dirty = true := by
  simp [GPState.setDirty, GPState.dirty]

/-- Claim C4: the dirty read is exactly the OR of the three sub-model
dirty flags with "the solver has never successfully computed"; a
successful `compute` leaves the composite clean; any subsequent
`set_parameter` makes it dirty again. -/
theorem dirty_state_machine :
    (∀ gp : GPState, gp.dirty =
      (gp.mean.dirty || gp.log_white_noise.dirty || gp.kernel.dirty || !gp.computedFlag)) ∧
    (∀ (gp : GPState) tIn yerrIn cs gp',
      gp.compute tIn yerrIn cs = .ok gp' → gp'.dirty = false) ∧
    (∀ (gp : GPState) name value, ((gp.setParameter name value).1).dirty = true) := by
  refine ⟨fun gp => rfl, ?_, ?_⟩
  · intro gp tIn yerrIn cs gp' h
    simp only [GPState.compute] at h
    split at h
    · exact absurd h (by simp)
    · split at h
      · exact absurd h (by simp)
      · cases h
        exact setDirty_false_dirty _
  · intro gp name value
    cases h : (gp.setDirty true).applyToParameter name value with
    | ok gp2 =>
      rw [GPState.setParameter, h]
      exact applyToParameter_ok_dirty _ name value rfl rfl gp2 h
    | error e =>
      rw [GPState.setParameter, h]
      exact setDirty_true_dirty _

/-- Claim C4, witness: a concrete successful `compute` leaves the state
clean, and a concrete `set_parameter` makes it dirty again. -/
theorem dirty_state_machine_witness :
    (∃ gp', gpEx.compute (.one [0, 1]) (.scalar 1) true = .ok gp' ∧ gp'.dirty = false) ∧
    ((gpEx.setParameter "kernel:k1" 7).1).dirty = true := by
  constructor
  · have h1 : ¬(True ∧ (PyArr.one [0, 1]).diffNeg) := by
      rintro ⟨-, h⟩
      simp only [PyArr.diffNeg, diffAnyNeg] at h
      norm_num at h
    have h2 : ¬(True ∧ (PyArr.one [0, 1]).ndim > 1) := by
      rintro ⟨-, h⟩
      simp [PyArr.ndim] at h
    have hcomp : ∃ g, gpEx.compute (.one [0, 1]) (.scalar 1) true = .ok g := by
      simp only [GPState.compute]
      rw [if_neg h1, if_neg h2]
      exact ⟨_, rfl⟩
    obtain ⟨g, hg⟩ := hcomp
    exact ⟨g, hg, dirty_state_machine.2.1 _ _ _ _ _ hg⟩
  · exact dirty_state_machine.2.2 gpEx "kernel:k1" 7

/-- Claim C7: `compute` on `t = [2, 1, 3]` with sortedness checking
enabled fails with the validation error; the same call with the check
disabled proceeds without error. -/
theorem compute_unsorted_coordinates (gp : GPState) (yerrIn : YErrIn) :
    gp.compute (.one [2, 1, 3]) yerrIn true = .error .notSorted ∧
    ∃ gp', gp.compute (.one [2, 1, 3]) yerrIn false = .ok gp' := by
  constructor
  · have hc : (PyArr.one [2, 1, 3]).diffNeg := by
      show diffAnyNeg [2, 1, 3]
      exact Or.inl (by norm_num)
    unfold GPState.compute
    rw [if_pos ⟨rfl, hc⟩]
  · unfold GPState.compute
    exact ⟨_, rfl⟩

/-- Claim C10: with checking disabled neither the sortedness nor the
dimensionality validation runs, so unsorted or multi-dimensional input is
bound without error; and even with checking enabled the sortedness test
is non-strict, rejecting only a strictly decreasing adjacent pair. -/
theorem compute_checks_gated_and_nonstrict :
    (∀ (gp : GPState) (tIn : PyArr) (yerrIn : YErrIn),
      ∃ gp', gp.compute tIn yerrIn false = .ok gp' ∧ gp'.t = some tIn) ∧
    (∀ (gp : GPState) (l : List ℝ) (yerrIn : YErrIn), ¬ diffAnyNeg l →
      ∃ gp', gp.compute (.one l) yerrIn true = .ok gp' ∧ gp'.t = some (.one l)) := by
  constructor
  · intro gp tIn yerrIn
    unfold GPState.compute
    exact ⟨_, rfl, rfl⟩
  · intro gp l yerrIn h
    have h1 : ¬(true = true ∧ (PyArr.one l).diffNeg) := by
      rintro ⟨-, hd⟩; exact h hd
    have h2 : ¬(true = true ∧ (PyArr.one l).ndim > 1) := by
      rintro ⟨-, hd⟩; simp [PyArr.ndim] at hd
    unfold GPState.compute
    rw [if_neg h1, if_neg h2]
    exact ⟨_, rfl, rfl⟩

/-- Claim C10, witness: coordinates with an equal adjacent pair pass the
enabled sortedness check. -/
theorem compute_checks_gated_and_nonstrict_witness :
    ∃ gp', gpEx.compute (.one [0, 0, 1]) (.scalar 1) true = .ok gp' ∧
      gp'.t = some (.one [0, 0, 1]) := by
  refine compute_checks_gated_and_nonstrict.2 gpEx [0, 0, 1] (.scalar 1) ?_
  intro hd
  rcases hd with h | h | h
  · norm_num at h
  · norm_num at h
  · exact h.elim

/-- Claim C9: `set_parameter` with a name matching no component tag
raises the unrecognized-parameter error, but the dirty write that
precedes the dispatch survives, so the composite reads dirty. -/
theorem setParameter_unrecognized_still_dirty (gp : GPState) (name : String) (value : ℝ)
    (h1 : ¬ name.startsWith "mean:") (h2 : ¬ name.startsWith "log_white_noise:")
    (h3 : ¬ name.startsWith "kernel:") :
    gp.setParameter name value = (gp.setDirty true, some (.unrecognized name)) ∧
    ((gp.setParameter name value).1).dirty = true := by
  have hap : (gp.setDirty true).applyToParameter name value =
      .error (.unrecognized name) := by
    unfold GPState.applyToParameter
    rw [if_neg h1, if_neg h2, if_neg h3]
  have hmain : gp.setParameter name value = (gp.setDirty true, some (.unrecognized name)) := by
    rw [GPState.setParameter, hap]
    rfl
  exact ⟨hmain, by rw [hmain]; exact setDirty_true_dirty gp⟩

/-- Claim C9, witness at a concrete state and name. -/
theorem setParameter_unrecognized_still_dirty_witness :
    gpEx.setParameter "foo" 1 = (gpEx.setDirty true, some (.unrecognized "foo")) ∧
    ((gpEx.setParameter "foo" 1).1).dirty = true :=
  setParameter_unrecognized_still_dirty gpEx "foo" 1 (by decide) (by decide) (by decide)

/-- Claim C5: on a state whose coordinates were never bound, every
solver-dependent operation fails with the "not computed" usage error. -/
theorem never_computed_usage_errors (gp : GPState) (h : gp.t = none) :
    (∀ y, gp.logLikelihood y = .error .notComputed) ∧
    (∀ y, gp.applyInverse y = .error .notComputed) ∧
    (∀ y, gp.dot y = .error .notComputed) ∧
    (∀ y tst rc rv, gp.predict y tst rc rv = .error .notComputed) ∧
    (∀ incl, gp.getMatrix none none incl = .error .notComputed) := by
  have hpi : ∀ y, gp.processInput y = .error .notComputed := by
    intro y; simp [GPState.processInput, h]
  have hrc : gp.dirty = true → gp.recompute = .error .notComputed := by
    intro hd; simp [GPState.recompute, hd, h]
  refine ⟨?_, ?_, ?_, ?_, ?_⟩
  · intro y
    simp [GPState.logLikelihood, hpi y, Bind.bind, Except.bind]
  · intro y
    cases hd : gp.dirty with
    | true => simp [GPState.applyInverse, hrc hd, Bind.bind, Except.bind]
    | false =>
      simp [GPState.applyInverse, GPState.recompute, hd, hpi y, Bind.bind, Except.bind]
  · intro y
    cases hd : gp.dirty with
    | true => simp [GPState.dot, hrc hd, Bind.bind, Except.bind]
    | false =>
      simp [GPState.dot, GPState.recompute, hd, hpi y, Bind.bind, Except.bind]
  · intro y tst rc rv
    simp [GPState.predict, hpi y, Bind.bind, Except.bind]
  · intro incl
    simp [GPState.getMatrix, h]

/-- Reassigning the unfrozen slots from a vector of exactly the unfrozen
count and reading them back returns the vector. -/
theorem filterMap_assignUnfrozen (ps : List (String × ℝ × Bool)) (v : List ℝ)
    (h : v.length = (ps.filter (fun p => p.2.2)).length) :
    (assignUnfrozen ps v).filterMap (fun p => if p.2.2 then some p.2.1 else none) = v := by
  induction ps generalizing v with
  | nil =>
    cases v with
    | nil => rfl
    | cons w ws => simp at h
  | cons p ps ih =>
    obtain ⟨nm, val, fr⟩ := p
    cases fr with
    | true =>
      simp only [List.filter_cons] at h
      simp only [if_true, List.length_cons] at h
      cases v with
      | nil => simp at h
      | cons w ws =>
        simp only [List.length_cons, Nat.succ_inj] at h
        simp only [assignUnfrozen, if_true, List.filterMap_cons]
        simp only [if_true, Option.some.injEq, List.cons.injEq, true_and]
        exact ih ws h
    | false =>
      simp only [List.filter_cons] at h
      simp only [Bool.false_eq_true, if_false] at h
      simp only [assignUnfrozen, Bool.false_eq_true, if_false, List.filterMap_cons]
      exact ih v h

/-- A fully unfrozen component has `vector_size = full_size`. -/
theorem Component.vectorSize_all_unfrozen (c : Component)
    (h : ∀ p ∈ c.params, p.2.2 = true) : c.vectorSize = c.fullSize := by
  unfold Component.vectorSize Component.fullSize
  rw [List.filter_eq_self.mpr h]

/-- Writing a slice of exactly the unfrozen count succeeds and marks the
sub-model dirty. -/
theorem Component.setParameterVector_ok (c : Component) (v : List ℝ)
    (h : v.length = c.vectorSize) :
    c.setParameterVector v = .ok ⟨assignUnfrozen c.params v, true⟩ := by
  unfold Component.setParameterVector
  rw [if_pos h]

/-- Claim C2, counterexample at the constructor's default freeze state:
the composite `vector_size` is 1 (only the kernel parameter is
unfrozen), yet writing the length-1 vector `[9]` is rejected (the slice
handed to the frozen mean has length `mean.full_size = 1`, not the
mean's unfrozen count 0), and reading the parameter vector afterwards
still returns the old kernel value, not `[9]`. -/
theorem parameter_vector_roundtrip_counterexample :
    ([9] : List ℝ).length = gpEx.vectorSize ∧
    (gpEx.setParameterVector [9]).2 = some .badParamLength ∧
    ((gpEx.setParameterVector [9]).1).parameterVector = [1] ∧
    ((gpEx.setParameterVector [9]).1).parameterVector ≠ [9] := by
  refine ⟨rfl, rfl, rfl, fun h => ?_⟩
  have h' : ([1] : List ℝ) = [9] := h
  injection h' with h1 h2
  norm_num at h1

/-- Claim C2, amended: when neither the mean nor the white-noise
sub-model has frozen parameters (so the `full_size`-offset slices used by
the setter line up with the unfrozen slots each sub-model consumes),
writing any `v` with `len(v) = vector_size` succeeds, reading
`parameter_vector` back returns `v`, and the composite reads dirty. -/
theorem parameter_vector_roundtrip (gp : GPState) (v : List ℝ)
    (hm : ∀ p ∈ gp.mean.params, p.2.2 = true)
    (hn : ∀ p ∈ gp.log_white_noise.params, p.2.2 = true)
    (hv : v.length = gp.vectorSize) :
    (gp.setParameterVector v).2 = none ∧
    ((gp.setParameterVector v).1).parameterVector = v ∧
    ((gp.setParameterVector v).1).dirty = true := by
  have hmi : gp.mean.vectorSize = gp.mean.fullSize :=
    Component.vectorSize_all_unfrozen _ hm
  have hni : gp.log_white_noise.vectorSize = gp.log_white_noise.fullSize :=
    Component.vectorSize_all_unfrozen _ hn
  have hvs : v.length =
      gp.mean.vectorSize + gp.log_white_noise.vectorSize + gp.kernel.vectorSize := hv
  have hile : gp.mean.fullSize ≤ v.length := by omega
  have h1len : (v.take gp.mean.fullSize).length = gp.mean.vectorSize := by
    rw [List.length_take, hmi]
    omega
  have h2len : ((v.drop gp.mean.fullSize).take gp.log_white_noise.fullSize).length =
      gp.log_white_noise.vectorSize := by
    rw [List.length_take, List.length_drop, hni]
    omega
  have h3len : (v.drop (gp.mean.fullSize + gp.log_white_noise.fullSize)).length =
      gp.kernel.vectorSize := by
    rw [List.length_drop]
    omega
  have e1 := Component.setParameterVector_ok gp.mean _ h1len
  have e2 := Component.setParameterVector_ok gp.log_white_noise _ h2len
  have e3 := Component.setParameterVector_ok gp.kernel _ h3len
  unfold GPState.setParameterVector
  simp only [e1, e2, e3]
  refine ⟨by simp, ?_, by simp [GPState.dirty]⟩
  simp only [GPState.parameterVector, Component.parameterVector]
  rw [filterMap_assignUnfrozen _ _ (by rw [h1len]; rfl),
      filterMap_assignUnfrozen _ _ (by rw [h2len]; rfl),
      filterMap_assignUnfrozen _ _ (by rw [h3len]; rfl)]
  rw [← List.drop_drop, List.append_assoc, List.take_append_drop, List.take_append_drop]

/-- Claim C2, amended, witness: a concrete fully-thawed state
round-trips a concrete vector. -/
theorem parameter_vector_roundtrip_witness :
    ((gpThawed.setParameterVector [4, 5, 6]).2 = none) ∧
    ((gpThawed.setParameterVector [4, 5, 6]).1).parameterVector = [4, 5, 6] ∧
    ((gpThawed.setParameterVector [4, 5, 6]).1).dirty = true := by
  refine parameter_vector_roundtrip gpThawed [4, 5, 6] ?_ ?_ rfl
  · intro p hp
    simp only [gpThawed, List.mem_singleton] at hp
    rw [hp]
  · intro p hp
    simp only [gpThawed, List.mem_singleton] at hp
    rw [hp]

/-- Claim C6: with coordinates bound and a matching-length vector,
`dot(y)` returns the kernel covariance matrix (live coefficients, no
noise diagonal) applied to `y` — `Ky`, not `K⁻¹y` — and the value does
not depend on the solver's cached factorization. -/
theorem dot_forward_covariance (gp : GPState) (tl yl : List ℝ)
    (ht : gp.t = some (.one tl)) (hlen : yl.length = tl.length) :
    gp.dot (.one yl) =
      .ok (matVec (kernelMatrix (gp.kernelF gp.kernel.vals) tl tl) yl) ∧
    ∀ s', ({ gp with solver := s' } : GPState).dot (.one yl) = gp.dot (.one yl) := by
  have key : ∀ (g : GPState), g.t = gp.t → g.kernelF = gp.kernelF →
      g.kernel.params = gp.kernel.params → g.yerr = gp.yerr →
      g.dirty = gp.dirty →
      g.dot (.one yl) =
        .ok (matVec (kernelMatrix (gp.kernelF gp.kernel.vals) tl tl) yl) := by
    intro g hgt hgk hgp hgy hgd
    cases hd : g.dirty with
    | false =>
      have hrc : g.recompute = .ok g := by simp [GPState.recompute, hd]
      simp [GPState.dot, hrc, GPState.processInput, hgt, ht, GPState.tl, PyArr.flat,
        PyArr.pyLen, hlen, Bind.bind, Except.bind, hgk, Component.vals, hgp]
    | true =>
      have hrc : g.recompute = g.compute (.one tl) (.arr g.yerrL) false := by
        simp [GPState.recompute, hd, hgt, ht]
      simp [GPState.dot, hrc, GPState.compute, GPState.processInput, GPState.setDirty,
        GPState.tl, PyArr.flat, PyArr.pyLen, hlen, Bind.bind, Except.bind, hgk,
        Component.vals, hgp]
  constructor
  · exact key gp rfl rfl rfl rfl rfl
  · intro s'
    rw [key gp rfl rfl rfl rfl rfl,
        key ({ gp with solver := s' } : GPState) rfl rfl rfl rfl rfl]

/-- Claim C6, witness: concrete coordinates and vector, including
independence from an arbitrary junk factorization cache. -/
theorem dot_forward_covariance_witness :
    gpT.dot (.one [1, 2]) =
      .ok (matVec (kernelMatrix (gpT.kernelF gpT.kernel.vals) [0, 1] [0, 1]) [1, 2]) ∧
    ({ gpT with solver := some ⟨[[5, 5], [5, 5]]⟩ } : GPState).dot (.one [1, 2]) =
      gpT.dot (.one [1, 2]) :=
  ⟨(dot_forward_covariance gpT [0, 1] [1, 2] rfl rfl).1,
   (dot_forward_covariance gpT [0, 1] [1, 2] rfl rfl).2 (some ⟨[[5, 5], [5, 5]]⟩)⟩

/-- The quadratic form against an all-zero left vector vanishes whatever
the solve returned. -/
theorem dotL_zeros (x : List ℝ) : dotL [0, 0, 0] x = 0 := by
  unfold dotL
  cases x with
  | nil => simp
  | cons a x1 =>
    cases x1 with
    | nil => simp
    | cons b x2 =>
      cases x2 with
      | nil => simp
      | cons c x3 => simp [List.zipWith]

/-- Claim C3: on a clean computed state `log_likelihood(y)` returns
`-0.5*(dot_solve(y - mean(t)) + log_determinant() + N*log(2*pi))`; it
fails on a vector of the wrong length and on a two-dimensional input;
and with `t = [0,1,2]`, zero mean, and an identity factored covariance
(zero noise, identity kernel self-covariance) it returns
`-0.5 * 3 * log(2*pi)`. -/
theorem log_likelihood_spec :
    (∀ (gp : GPState) (tl yl : List ℝ) (s : SolverState),
      gp.t = some (.one tl) → gp.dirty = false → gp.solver = some s →
      yl.length = tl.length →
      gp.logLikelihood (.one yl) =
        .ok (-(0.5) * (dotL (List.zipWith (· - ·) yl (tl.map (gp.meanF gp.mean.vals)))
            (gp.solveF s.A (List.zipWith (· - ·) yl (tl.map (gp.meanF gp.mean.vals)))) +
          gp.logdetF s.A + (yl.length : ℝ) * Real.log (2 * Real.pi)))) ∧
    (∀ (gp : GPState) (tl : List ℝ) (y : PyArr),
      gp.t = some (.one tl) → y.pyLen ≠ tl.length →
      gp.logLikelihood y = .error .dimMismatch) ∧
    (∀ (gp : GPState) (tl : List ℝ) (m : List (List ℝ)),
      gp.t = some (.one tl) → m.length = tl.length →
      gp.logLikelihood (.two m) = .error .dimMismatch) ∧
    (∀ gp : GPState,
      gp.t = some (.one [0, 1, 2]) → gp.dirty = false →
      gp.solver = some ⟨[[1, 0, 0], [0, 1, 0], [0, 0, 1]]⟩ →
      (∀ x, gp.meanF gp.mean.vals x = 0) →
      gp.logdetF [[1, 0, 0], [0, 1, 0], [0, 0, 1]] = 0 →
      gp.logLikelihood (.one [0, 0, 0]) = .ok (-(0.5) * (3 * Real.log (2 * Real.pi)))) := by
  have part1 : ∀ (gp : GPState) (tl yl : List ℝ) (s : SolverState),
      gp.t = some (.one tl) → gp.dirty = false → gp.solver = some s →
      yl.length = tl.length →
      gp.logLikelihood (.one yl) =
        .ok (-(0.5) * (dotL (List.zipWith (· - ·) yl (tl.map (gp.meanF gp.mean.vals)))
            (gp.solveF s.A (List.zipWith (· - ·) yl (tl.map (gp.meanF gp.mean.vals)))) +
          gp.logdetF s.A + (yl.length : ℝ) * Real.log (2 * Real.pi))) := by
    intro gp tl yl s ht hcl hs hlen
    have hrc : gp.recompute = .ok gp := by simp [GPState.recompute, hcl]
    simp [GPState.logLikelihood, GPState.processInput, ht, hrc, hs, GPState.tl,
      PyArr.flat, PyArr.pyLen, hlen, Bind.bind, Except.bind]
  refine ⟨part1, ?_, ?_, ?_⟩
  · intro gp tl y ht hne
    have hc : ¬(y.pyLen = (PyArr.one tl).pyLen) := by
      simpa [PyArr.pyLen] using hne
    have hpi : gp.processInput y = .error .dimMismatch := by
      simp [GPState.processInput, ht, hc]
    simp [GPState.logLikelihood, hpi, Bind.bind, Except.bind]
  · intro gp tl m ht hml
    cases hd : gp.dirty with
    | false =>
      have hrc : gp.recompute = .ok gp := by simp [GPState.recompute, hd]
      simp [GPState.logLikelihood, GPState.processInput, ht, hrc, PyArr.pyLen, hml,
        Bind.bind, Except.bind]
    | true =>
      have hrc : gp.recompute = gp.compute (.one tl) (.arr gp.yerrL) false := by
        simp [GPState.recompute, hd, ht]
      simp [GPState.logLikelihood, GPState.processInput, ht, hrc, GPState.compute,
        GPState.setDirty, PyArr.pyLen, hml, Bind.bind, Except.bind]
  · intro gp ht hcl hs hm hld
    rw [part1 gp [0, 1, 2] [0, 0, 0] _ ht hcl hs rfl]
    have hresid : List.zipWith (· - ·) ([0, 0, 0] : List ℝ)
        (([0, 1, 2] : List ℝ).map (gp.meanF gp.mean.vals)) = ([0, 0, 0] : List ℝ) := by
      simp [hm]
    rw [hresid, dotL_zeros, hld]
    norm_num

/-- Claim C3, witness: the concrete identity-covariance instance. -/
theorem log_likelihood_spec_witness :
    gpC3.logLikelihood (.one [0, 0, 0]) = .ok (-(0.5) * (3 * Real.log (2 * Real.pi))) :=
  log_likelihood_spec.2.2.2 gpC3 rfl rfl rfl (fun _ => rfl) rfl

/-- Claim C8, counterexample: at `get_matrix(x1=[0], x2 omitted,
include_diagonal=True)` the two coordinate sets coincide and the diagonal
is requested, yet the entry returned is `kernel(0) + exp(wn(0)) = 1`:
the squared observation noise (`yerr**2 = 1`) is *not* added, contrary to
the claim's predicted `kernel(0) + yerr**2 + exp(wn(0)) = 2`. -/
theorem get_matrix_diag_counterexample :
    gpC8.yerrL = [1] ∧
    gpC8.getMatrix (some [0]) none (some true) = .ok [[1]] ∧
    gpC8.kernelF gpC8.kernel.vals 0 + gpC8.yerrL.getD 0 0 ^ 2 +
      Real.exp (gpC8.noiseF gpC8.log_white_noise.vals 0) = 2 ∧
    gpC8.getMatrix (some [0]) none (some true) ≠ .ok [[2]] := by
  have h : gpC8.getMatrix (some [0]) none (some true) = .ok [[1]] := by
    simp [GPState.getMatrix, kernelMatrix, addDiag, addDiagAux, addIdx, gpC8, gpEx,
      Real.exp_zero]
  refine ⟨rfl, h, ?_, ?_⟩
  · show (0 : ℝ) + 1 ^ 2 + Real.exp 0 = 2
    rw [Real.exp_zero]
    norm_num
  · rw [h]
    intro hcontra
    injection hcontra with h1
    injection h1 with h2
    injection h2 with h3
    norm_num at h3

/-- Claim C8, amended: `get_matrix` builds the dense kernel covariance
between the two coordinate sets (the training self-covariance when both
are omitted, requiring a prior successful compute).  A diagonal is added
only when the second coordinate set is omitted: the full
`yerr**2 + exp(log_white_noise)` term in the training branch (default or
explicit `True`), but only the white-noise term — without the squared
observation noise — when `x1` is given with `x2` omitted and
`include_diagonal` is explicitly `True`.  With both sets passed no
diagonal is added even when they coincide. -/
theorem get_matrix_spec :
    (∀ (gp : GPState) (incl : Option Bool), gp.t = none →
      gp.getMatrix none none incl = .error .notComputed) ∧
    (∀ (gp : GPState) (incl : Option Bool), gp.dirty = true →
      gp.getMatrix none none incl = .error .notComputed) ∧
    (∀ (gp : GPState) (tl : List ℝ) (incl : Option Bool),
      gp.t = some (.one tl) → gp.dirty = false →
      gp.getMatrix none none incl =
        .ok (if incl = some false then kernelMatrix (gp.kernelF gp.kernel.vals) tl tl
          else addDiag (kernelMatrix (gp.kernelF gp.kernel.vals) tl tl) gp.getDiag)) ∧
    (∀ (gp : GPState) (l1 l2 : List ℝ) (incl : Option Bool),
      gp.getMatrix (some l1) (some l2) incl =
        .ok (kernelMatrix (gp.kernelF gp.kernel.vals) l1 l2)) ∧
    (∀ (gp : GPState) (l1 : List ℝ),
      gp.getMatrix (some l1) none (some true) =
        .ok (addDiag (kernelMatrix (gp.kernelF gp.kernel.vals) l1 l1)
          (l1.map (fun x => Real.exp (gp.noiseF gp.log_white_noise.vals x)))) ∧
      ∀ incl, incl ≠ some true →
        gp.getMatrix (some l1) none incl =
          .ok (kernelMatrix (gp.kernelF gp.kernel.vals) l1 l1)) := by
  refine ⟨?_, ?_, ?_, ?_, ?_⟩
  · intro gp incl h
    simp [GPState.getMatrix, h]
  · intro gp incl hd
    simp [GPState.getMatrix, GPState.computed, hd]
  · intro gp tl incl ht hd
    cases incl with
    | none =>
      simp [GPState.getMatrix, GPState.computed, hd, ht, GPState.tl, PyArr.flat]
    | some b =>
      cases b <;>
        simp [GPState.getMatrix, GPState.computed, hd, ht, GPState.tl, PyArr.flat]
  · intro gp l1 l2 incl
    rfl
  · intro gp l1
    refine ⟨by simp [GPState.getMatrix], ?_⟩
    intro incl hne
    simp [GPState.getMatrix, hne]

/-- Claim C8, amended, witness: the three shapes at concrete states. -/
theorem get_matrix_spec_witness :
    gpEx.getMatrix none none (some true) = .error .notComputed ∧
    gpC8.getMatrix none none none =
      .ok (if (none : Option Bool) = some false
        then kernelMatrix (gpC8.kernelF gpC8.kernel.vals) [0] [0]
        else addDiag (kernelMatrix (gpC8.kernelF gpC8.kernel.vals) [0] [0]) gpC8.getDiag) ∧
    gpC8.getMatrix (some [0]) (some [0]) (some true) =
      .ok (kernelMatrix (gpC8.kernelF gpC8.kernel.vals) [0] [0]) :=
  ⟨get_matrix_spec.1 gpEx (some true) rfl,
   get_matrix_spec.2.2.1 gpC8 [0] none rfl rfl,
   get_matrix_spec.2.2.2.1 gpC8 [0] [0] (some true)⟩

/-- `getD` agrees with indexing inside the length. -/
theorem getD_of_lt {α : Type} (l : List α) (i : ℕ) (d : α) (h : i < l.length) :
    l.getD i d = l[i] := by
  simp [List.getD_eq_getElem?_getD, List.getElem?_eq_getElem h]

/-- Unfolding one step of the dot product. -/
theorem dotL_cons (a b : ℝ) (as bs : List ℝ) :
    dotL (a :: as) (b :: bs) = a * b + dotL as bs := by
  simp [dotL]

/-- Adding `c` at position `i` of the left factor adds `c * v[i]` to the
dot product. -/
theorem dotL_addIdx (r : List ℝ) (v : List ℝ) (i : ℕ) (c : ℝ)
    (hr : i < r.length) (hv : i < v.length) :
    dotL (addIdx r i c) v = dotL r v + c * v[i] := by
  induction r generalizing v i with
  | nil => simp at hr
  | cons x xs ih =>
    cases v with
    | nil => simp at hv
    | cons w ws =>
      cases i with
      | zero =>
        show dotL ((x + c) :: xs) (w :: ws) = _
        rw [dotL_cons, dotL_cons, List.getElem_cons_zero]
        ring
      | succ i =>
        have hr' : i < xs.length := by simpa using hr
        have hv' : i < ws.length := by simpa using hv
        show dotL (x :: addIdx xs i c) (w :: ws) = _
        rw [dotL_cons, ih ws i hr' hv', dotL_cons, List.getElem_cons_succ]
        ring

/-- `addDiagAux` preserves the row count. -/
theorem length_addDiagAux (M : List (List ℝ)) (d : List ℝ) (k : ℕ) :
    (addDiagAux M d k).length = M.length := by
  induction M generalizing k with
  | nil => rfl
  | cons r rs ih => simp [addDiagAux, ih]

/-- Row `i` of `addDiagAux M d k` is row `i` of `M` with `d[k+i]` added
at column `k+i`. -/
theorem getD_addDiagAux (M : List (List ℝ)) (d : List ℝ) (k i : ℕ) (h : i < M.length) :
    (addDiagAux M d k).getD i [] = addIdx (M.getD i []) (k + i) (d.getD (k + i) 0) := by
  induction M generalizing k i with
  | nil => simp at h
  | cons r rs ih =>
    cases i with
    | zero => rfl
    | succ i =>
      have h' : i < rs.length := by simpa using h
      show (addDiagAux rs d (k + 1)).getD i [] = _
      rw [ih (k + 1) i h']
      have e : k + 1 + i = k + (i + 1) := by omega
      rw [e]
      rfl

/-- Entry `i` of a matrix–vector product is the dot product with row `i`. -/
theorem getD_matVec (M : List (List ℝ)) (v : List ℝ) (i : ℕ) (h : i < M.length) :
    (matVec M v).getD i 0 = dotL (M.getD i []) v := by
  induction M generalizing i with
  | nil => simp at h
  | cons r rs ih =>
    cases i with
    | zero => rfl
    | succ i => exact ih i (by simpa using h)

/-- `matVec` has one entry per row. -/
theorem length_matVec (M : List (List ℝ)) (v : List ℝ) :
    (matVec M v).length = M.length := by
  simp [matVec]

/-- The kernel covariance has one row per left coordinate. -/
theorem length_kernelMatrix (k : ℝ → ℝ) (x1 x2 : List ℝ) :
    (kernelMatrix k x1 x2).length = x1.length := by
  simp [kernelMatrix]

/-- Every row of the kernel covariance has one entry per right
coordinate. -/
theorem length_getD_kernelMatrix (k : ℝ → ℝ) (x1 x2 : List ℝ) (i : ℕ)
    (h : i < x1.length) :
    ((kernelMatrix k x1 x2).getD i []).length = x2.length := by
  induction x1 generalizing i with
  | nil => simp at h
  | cons a as ih =>
    cases i with
    | zero => simp [kernelMatrix]
    | succ i => exact ih i (by simpa using h)

/-- The linear-algebra fact behind the training-point branch: if
`(Kxs + diag(D)) · alpha = y - m` then
`m + (y - D*alpha) = m + (m + Kxs·alpha)` entrywise — the left side (what
the code returns) exceeds the dense prediction `m + Kxs·alpha` by exactly
`m`, because `y - D*alpha` already equals `m + Kxs·alpha`. -/
theorem diag_shortcut_vs_dense (yl m D alpha : List ℝ) (Kxs : List (List ℝ))
    (hlm : m.length = yl.length) (hlD : D.length = yl.length)
    (hla : alpha.length = yl.length) (hlK : Kxs.length = yl.length)
    (hrow : ∀ i, i < Kxs.length → (Kxs.getD i []).length = yl.length)
    (hsolve : matVec (addDiag Kxs D) alpha = List.zipWith (· - ·) yl m) :
    List.zipWith (· + ·) m (List.zipWith (· - ·) yl (List.zipWith (· * ·) D alpha)) =
      List.zipWith (· + ·) m (List.zipWith (· + ·) m (matVec Kxs alpha)) := by
  apply List.ext_getElem
  · simp only [List.length_zipWith, length_matVec]
    omega
  · intro i h1 h2
    have hiy : i < yl.length := by
      simp only [List.length_zipWith] at h1
      omega
    have hiK : i < Kxs.length := by omega
    have hia : i < alpha.length := by omega
    have hiD : i < D.length := by omega
    have him : i < m.length := by omega
    have hrowl : (Kxs.getD i []).length = yl.length := hrow i hiK
    have hkey := congrArg (fun l => l.getD i 0) hsolve
    simp only at hkey
    rw [getD_matVec _ _ i (by rw [addDiag, length_addDiagAux]; exact hiK)] at hkey
    have hAi : (addDiag Kxs D).getD i [] = addIdx (Kxs.getD i []) i (D.getD i 0) := by
      rw [addDiag, getD_addDiagAux Kxs D 0 i hiK]
      norm_num
    have hrhs : (List.zipWith (· - ·) yl m).getD i 0 = yl[i] - m[i] := by
      rw [getD_of_lt _ _ _ (by simp only [List.length_zipWith]; omega)]
      simp [List.getElem_zipWith]
    have hkey2 : dotL (Kxs.getD i []) alpha + D[i] * alpha[i] = yl[i] - m[i] := by
      rw [← getD_of_lt D i 0 hiD,
        ← dotL_addIdx (Kxs.getD i []) alpha i (D.getD i 0) (by omega) hia,
        ← hAi, hkey, hrhs]
    have hlenmv : i < (matVec Kxs alpha).length := by
      rw [length_matVec]
      exact hiK
    have hmv : (matVec Kxs alpha)[i] = dotL (Kxs.getD i []) alpha := by
      rw [← getD_of_lt (matVec Kxs alpha) i 0 hlenmv]
      exact getD_matVec Kxs alpha i hiK
    simp only [List.getElem_zipWith]
    rw [hmv]
    linarith [hkey2]

/-- Claim C1: on a clean computed state whose factored matrix is the
current `Kernel(t,t) + diag` and whose solve satisfies the contract at
the residual, `predict(y, t=None, return_cov=False, return_var=False)`
does return exactly `mean(t) + alpha2` with the diagonal shortcut
`alpha2 = y - diag * K⁻¹(y - mean(t))` â but that vector is NOT the
dense computation `mean(t) + Kxs · K⁻¹(y - mean(t))`: it exceeds it by
`mean(t)` entrywise (the shortcut value `y - diag*alpha` already contains
the mean).  Concretely, with constant mean 1, `t = [0]`, `yerr = [1]`,
constant kernel 1 and zero log-white-noise, `predict([2])` at the
training points returns `[7/3]` while the same query through the dense
path â `predict([2], t=[0])` on the very same coordinates â returns
`[4/3]`. -/
theorem predict_training_shortcut_bug :
    (∀ (gp : GPState) (tl yl : List ℝ) (s : SolverState),
      gp.t = some (.one tl) → gp.dirty = false → gp.solver = some s →
      yl.length = tl.length →
      gp.getDiag.length = tl.length →
      (gp.solveF s.A (residOf gp tl yl)).length = tl.length →
      s.A = addDiag (kernelMatrix (gp.kernelF gp.kernel.vals) tl tl) gp.getDiag →
      matVec s.A (gp.solveF s.A (residOf gp tl yl)) = residOf gp tl yl →
      gp.predict (.one yl) none false false =
        .ok (.meanOnly (List.zipWith (· + ·) (tl.map (gp.meanF gp.mean.vals))
          (List.zipWith (· - ·) yl
            (List.zipWith (· * ·) gp.getDiag (gp.solveF s.A (residOf gp tl yl)))))) ∧
      List.zipWith (· + ·) (tl.map (gp.meanF gp.mean.vals))
          (List.zipWith (· - ·) yl
            (List.zipWith (· * ·) gp.getDiag (gp.solveF s.A (residOf gp tl yl)))) =
        List.zipWith (· + ·) (tl.map (gp.meanF gp.mean.vals))
          (List.zipWith (· + ·) (tl.map (gp.meanF gp.mean.vals))
            (matVec (kernelMatrix (gp.kernelF gp.kernel.vals) tl tl)
              (gp.solveF s.A (residOf gp tl yl))))) ∧
    gpC1m.predict (.one [2]) none false false = .ok (.meanOnly [7 / 3]) ∧
    gpC1m.predict (.one [2]) (some (.one [0])) false false = .ok (.meanOnly [4 / 3]) ∧
    ((7 : ℝ) / 3 ≠ 4 / 3) := by
  have hgen : ∀ (gp : GPState) (tl yl : List ℝ) (s : SolverState),
      gp.t = some (.one tl) → gp.dirty = false → gp.solver = some s →
      yl.length = tl.length →
      gp.getDiag.length = tl.length →
      (gp.solveF s.A (residOf gp tl yl)).length = tl.length →
      s.A = addDiag (kernelMatrix (gp.kernelF gp.kernel.vals) tl tl) gp.getDiag →
      matVec s.A (gp.solveF s.A (residOf gp tl yl)) = residOf gp tl yl →
      gp.predict (.one yl) none false false =
        .ok (.meanOnly (List.zipWith (· + ·) (tl.map (gp.meanF gp.mean.vals))
          (List.zipWith (· - ·) yl
            (List.zipWith (· * ·) gp.getDiag (gp.solveF s.A (residOf gp tl yl)))))) ∧
      List.zipWith (· + ·) (tl.map (gp.meanF gp.mean.vals))
          (List.zipWith (· - ·) yl
            (List.zipWith (· * ·) gp.getDiag (gp.solveF s.A (residOf gp tl yl)))) =
        List.zipWith (· + ·) (tl.map (gp.meanF gp.mean.vals))
          (List.zipWith (· + ·) (tl.map (gp.meanF gp.mean.vals))
            (matVec (kernelMatrix (gp.kernelF gp.kernel.vals) tl tl)
              (gp.solveF s.A (residOf gp tl yl)))) := by
    intro gp tl yl s ht hcl hs hlen hD ha hA hsolve
    constructor
    · have hrc : gp.recompute = .ok gp := by simp [GPState.recompute, hcl]
      simp [GPState.predict, GPState.processInput, ht, hrc, hs, GPState.tl, PyArr.flat,
        PyArr.pyLen, hlen, Bind.bind, Except.bind, Pure.pure, Except.pure, residOf]
    · refine diag_shortcut_vs_dense yl (tl.map (gp.meanF gp.mean.vals)) gp.getDiag
        (gp.solveF s.A (residOf gp tl yl))
        (kernelMatrix (gp.kernelF gp.kernel.vals) tl tl)
        (by simp [hlen]) (by rw [hD, hlen]) (by rw [ha, hlen])
        (by rw [length_kernelMatrix, hlen]) ?_ ?_
      · intro i hi
        rw [length_getD_kernelMatrix _ _ _ i (by rwa [length_kernelMatrix] at hi), hlen]
      · rw [← hA, hsolve, residOf]
  have h0 : (2 : ℝ) + Real.exp 0 ≠ 0 := by positivity
  have hA : ([[2 + Real.exp 0]] : List (List ℝ)) =
      addDiag (kernelMatrix (gpC1m.kernelF gpC1m.kernel.vals) [0] [0]) gpC1m.getDiag := by
    show [[2 + Real.exp 0]] = [[(1 : ℝ) + ((1 : ℝ) ^ 2 + Real.exp 0)]]
    norm_num
  have hsolve : matVec [[2 + Real.exp 0]]
      (gpC1m.solveF [[2 + Real.exp 0]] (residOf gpC1m [0] [2])) =
      residOf gpC1m [0] [2] := by
    show [(2 + Real.exp 0) * (((2 : ℝ) - 1) / (2 + Real.exp 0)) + 0] = [(2 : ℝ) - 1]
    rw [mul_div_cancel₀ _ h0]
    norm_num
  refine ⟨hgen, ?_, ?_, by norm_num⟩
  · rw [(hgen gpC1m [0] [2] ⟨[[2 + Real.exp 0]]⟩ rfl rfl rfl rfl rfl rfl hA hsolve).1]
    show Except.ok (PredictOut.meanOnly
      [(1 : ℝ) + (2 - (1 ^ 2 + Real.exp 0) * ((2 - 1) / (2 + Real.exp 0)))]) = _
    rw [Real.exp_zero]
    norm_num
  · have hd : gpC1m.dirty = false := rfl
    have hrc : gpC1m.recompute = .ok gpC1m := by simp [GPState.recompute, hd]
    simp only [GPState.predict, GPState.processInput, hrc, Bind.bind, Except.bind,
      Pure.pure, Except.pure, GPState.tl, PyArr.flat, PyArr.pyLen]
    norm_num [gpC1m, gpC1, gpEx, matVec, dotL, kernelMatrix, GPState.getDiag,
      GPState.yerrL, Component.vals, Real.exp_zero]

/-- Claim C1, witness: the general statement instantiated at the
concrete one-point state with constant mean 1. -/
theorem predict_training_shortcut_bug_witness :
    gpC1m.predict (.one [2]) none false false =
      .ok (.meanOnly (List.zipWith (· + ·) (([0] : List ℝ).map (gpC1m.meanF gpC1m.mean.vals))
        (List.zipWith (· - ·) [2]
          (List.zipWith (· * ·) gpC1m.getDiag
            (gpC1m.solveF [[2 + Real.exp 0]] (residOf gpC1m [0] [2])))))) ∧
    List.zipWith (· + ·) (([0] : List ℝ).map (gpC1m.meanF gpC1m.mean.vals))
        (List.zipWith (· - ·) [2]
          (List.zipWith (· * ·) gpC1m.getDiag
            (gpC1m.solveF [[2 + Real.exp 0]] (residOf gpC1m [0] [2])))) =
      List.zipWith (· + ·) (([0] : List ℝ).map (gpC1m.meanF gpC1m.mean.vals))
        (List.zipWith (· + ·) (([0] : List ℝ).map (gpC1m.meanF gpC1m.mean.vals))
          (matVec (kernelMatrix (gpC1m.kernelF gpC1m.kernel.vals) [0] [0])
            (gpC1m.solveF [[2 + Real.exp 0]] (residOf gpC1m [0] [2])))) := by
  have h0 : (2 : ℝ) + Real.exp 0 ≠ 0 := by positivity
  exact predict_training_shortcut_bug.1 gpC1m [0] [2] ⟨[[2 + Real.exp 0]]⟩
    rfl rfl rfl rfl rfl rfl
    (by show [[2 + Real.exp 0]] = [[(1 : ℝ) + ((1 : ℝ) ^ 2 + Real.exp 0)]]
        norm_num)
    (by show [(2 + Real.exp 0) * (((2 : ℝ) - 1) / (2 + Real.exp 0)) + 0] = [(2 : ℝ) - 1]
        rw [mul_div_cancel₀ _ h0]
        norm_num)

/-- Claim C5, witness: the five operations on a concrete never-computed
state. -/
theorem never_computed_usage_errors_witness :
    gpEx.logLikelihood (.one [1]) = .error .notComputed ∧
    gpEx.applyInverse (.one [1]) = .error .notComputed ∧
    gpEx.dot (.one [1]) = .error .notComputed ∧
    gpEx.predict (.one [1]) none true false = .error .notComputed ∧
    gpEx.getMatrix none none none = .error .notComputed :=
  ⟨(never_computed_usage_errors gpEx rfl).1 _,
   (never_computed_usage_errors gpEx rfl).2.1 _,
   (never_computed_usage_errors gpEx rfl).2.2.1 _,
   (never_computed_usage_errors gpEx rfl).2.2.2.1 _ _ _ _,
   (never_computed_usage_errors gpEx rfl).2.2.2.2 _⟩

end
